import Mathlib

/-!
Verification of the buzz-line live-chat relay server.

Shallow embedding of the rate limiter, token-session validator, connection
gateway, message history store and Telegram topic bridge, translated from
`src/server.ts` (shipped inside `src/Dockerfile`), `src/src/types.ts`
(includes `src/telegram.ts`) and `src/src/db.ts`.  Time is modelled as `Nat`
milliseconds (seconds for token expiry, as in the source); JavaScript `Map`s
and the SQLite stores are modelled as total functions with explicit defaults,
matching the on-demand entry creation of the source.
-/

namespace BuzzLine

/-! ## Rate limiter (server.ts lines 313-400) -/

/-- One `rateLimits` map entry: three sliding-window timestamp sequences,
the consecutive short-window violation counter, and the block deadline. -/
structure RateEntry where
  short : List Nat
  medium : List Nat
  daily : List Nat
  burstStrikes : Nat
  blockedUntil : Nat
deriving DecidableEq, Repr

/-- The fresh entry `getRateEntry` installs for an unknown key. -/
def emptyRateEntry : RateEntry := ⟨[], [], [], 0, 0⟩

/-- The `rateLimits : Map<string, ...>` table; a missing key behaves as the
fresh entry, exactly as `getRateEntry` creates one on demand. -/
abbrev RateState := String → RateEntry

/-- Pointwise update of the rate-limit table (a `Map.set`). -/
def updState (s : RateState) (k : String) (e : RateEntry) : RateState :=
  fun k' => if k' = k then e else s k'

def RATE_SHORT_MAX : Nat := 5
def RATE_SHORT_WINDOW : Nat := 10000
def RATE_MEDIUM_MAX : Nat := 60
def RATE_MEDIUM_WINDOW : Nat := 600000
def RATE_DAILY_MAX : Nat := 300
def RATE_DAILY_WINDOW : Nat := 86400000
def BURST_COOLDOWN : Nat := 60000
def BURST_STRIKE_THRESHOLD : Nat := 3
def MAX_MESSAGE_LENGTH : Nat := 2000

/-- `pruneEntry`: drop timestamps that have left each sliding window
(`now - t < WINDOW` is kept, as in the source). -/
def pruneEntry (e : RateEntry) (now : Nat) : RateEntry :=
  { e with
    short := e.short.filter (fun t => now - t < RATE_SHORT_WINDOW)
    medium := e.medium.filter (fun t => now - t < RATE_MEDIUM_WINDOW)
    daily := e.daily.filter (fun t => now - t < RATE_DAILY_WINDOW) }

/-- The burst-strike bookkeeping done when the short window is at capacity:
increment the counter; at the threshold set the 60-second block and reset. -/
def strikeUpdate (e : RateEntry) (now : Nat) : RateEntry :=
  if e.burstStrikes + 1 ≥ BURST_STRIKE_THRESHOLD then
    { e with burstStrikes := 0, blockedUntil := now + BURST_COOLDOWN }
  else
    { e with burstStrikes := e.burstStrikes + 1 }

/-- First loop of `checkRateLimitKeys`: prune every entry in key order and
fail on an active block or a full window; the pruned (and possibly
strike-updated) entries are persisted in the map as the source mutates them
in place. -/
def checkPass1 (now : Nat) : List String → RateState → Bool × RateState
  | [], s => (true, s)
  | k :: ks, s =>
    if (pruneEntry (s k) now).blockedUntil > now then
      (false, updState s k (pruneEntry (s k) now))
    else if (pruneEntry (s k) now).short.length ≥ RATE_SHORT_MAX then
      (false, updState s k (strikeUpdate (pruneEntry (s k) now) now))
    else if (pruneEntry (s k) now).medium.length ≥ RATE_MEDIUM_MAX then
      (false, updState s k (pruneEntry (s k) now))
    else if (pruneEntry (s k) now).daily.length ≥ RATE_DAILY_MAX then
      (false, updState s k (pruneEntry (s k) now))
    else checkPass1 now ks (updState s k (pruneEntry (s k) now))

/-- `entry.short.push(now)` etc. for one entry. -/
def pushNow (e : RateEntry) (now : Nat) : RateEntry :=
  { e with
    short := e.short ++ [now]
    medium := e.medium ++ [now]
    daily := e.daily ++ [now] }

/-- Second loop of `checkRateLimitKeys`: record the event on every key. -/
def recordAll (now : Nat) : List String → RateState → RateState
  | [], s => s
  | k :: ks, s => recordAll now ks (updState s k (pushNow (s k) now))

/-- `checkRateLimitKeys(keys)`: all keys must pass before any key records. -/
def checkRateLimitKeys (keys : List String) (now : Nat) (s : RateState) : Bool × RateState :=
  match checkPass1 now keys s with
  | (true, s') => (true, recordAll now keys s')
  | (false, s') => (false, s')

/-- A sequence of `checkRateLimitKeys` calls at the given times, returning
the list of results and the final table. -/
def runChecks (keys : List String) : List Nat → RateState → List Bool × RateState
  | [], s => ([], s)
  | n :: ns, s =>
    let r := checkRateLimitKeys keys n s
    let rest := runChecks keys ns r.2
    (r.1 :: rest.1, rest.2)

/-! ### Rate limiter: basic lemmas -/

theorem updState_self (s : RateState) (k : String) (e : RateEntry) :
    updState s k e k = e := by
  simp [updState]

theorem updState_other (s : RateState) (k : String) (e : RateEntry) (k' : String)
    (h : k' ≠ k) : updState s k e k' = s k' := by
  simp [updState, h]

theorem updState_updState (s : RateState) (k : String) (a b : RateEntry) :
    updState (updState s k a) k b = updState s k b := by
  funext k'
  by_cases h : k' = k <;> simp [updState, h]

theorem pruneEntry_blockedUntil (e : RateEntry) (now : Nat) :
    (pruneEntry e now).blockedUntil = e.blockedUntil := rfl

theorem pruneEntry_burstStrikes (e : RateEntry) (now : Nat) :
    (pruneEntry e now).burstStrikes = e.burstStrikes := rfl

/-- Pruning changes nothing when every timestamp is still inside the
(shortest) window. -/
theorem pruneEntry_of_young (e : RateEntry) (now : Nat)
    (hs : ∀ t ∈ e.short, now - t < RATE_SHORT_WINDOW)
    (hm : ∀ t ∈ e.medium, now - t < RATE_MEDIUM_WINDOW)
    (hd : ∀ t ∈ e.daily, now - t < RATE_DAILY_WINDOW) :
    pruneEntry e now = e := by
  unfold pruneEntry
  cases e with
  | mk short medium daily bs bu =>
    simp only [RateEntry.mk.injEq, and_true, true_and]
    refine ⟨?_, ?_, ?_⟩ <;> rw [List.filter_eq_self]
    · intro a ha; simpa using hs a ha
    · intro a ha; simpa using hm a ha
    · intro a ha; simpa using hd a ha

/-- Specialisation to entries whose three windows hold the same list. -/
theorem pruneEntry_uniform (l : List Nat) (bs bu now : Nat)
    (h : ∀ t ∈ l, now - t < RATE_SHORT_WINDOW) :
    pruneEntry ⟨l, l, l, bs, bu⟩ now = ⟨l, l, l, bs, bu⟩ := by
  refine pruneEntry_of_young _ _ h ?_ ?_ <;>
    · intro t ht
      have := h t ht
      simp only [RATE_SHORT_WINDOW] at this
      simp only [RATE_MEDIUM_WINDOW, RATE_DAILY_WINDOW]
      omega

/-- Evaluation of a passing single-key check. -/
theorem check_single_accept (k : String) (now : Nat) (s : RateState)
    (hb : ¬ (s k).blockedUntil > now)
    (hs : (pruneEntry (s k) now).short.length < RATE_SHORT_MAX)
    (hm : (pruneEntry (s k) now).medium.length < RATE_MEDIUM_MAX)
    (hd : (pruneEntry (s k) now).daily.length < RATE_DAILY_MAX) :
    checkRateLimitKeys [k] now s =
      (true, updState s k (pushNow (pruneEntry (s k) now) now)) := by
  have hb' : ¬ (pruneEntry (s k) now).blockedUntil > now := hb
  simp only [checkRateLimitKeys, checkPass1]
  rw [if_neg hb', if_neg (by omega), if_neg (by omega), if_neg (by omega)]
  simp only [recordAll, updState_self, updState_updState]

/-- Evaluation of a single-key check rejected on short-window capacity. -/
theorem check_single_short_reject (k : String) (now : Nat) (s : RateState)
    (hb : ¬ (s k).blockedUntil > now)
    (hs : (pruneEntry (s k) now).short.length ≥ RATE_SHORT_MAX) :
    checkRateLimitKeys [k] now s =
      (false, updState s k (strikeUpdate (pruneEntry (s k) now) now)) := by
  have hb' : ¬ (pruneEntry (s k) now).blockedUntil > now := hb
  simp only [checkRateLimitKeys, checkPass1]
  rw [if_neg hb', if_pos hs]

/-- A key inside an active block period fails the whole check, whatever the
contents of its windows. -/
theorem check_blocked_fails (keys : List String) (now : Nat) (s : RateState)
    (k : String) (hk : k ∈ keys) (hb : (s k).blockedUntil > now) :
    (checkRateLimitKeys keys now s).1 = false := by
  suffices h : ∀ keys s, k ∈ keys → (s k).blockedUntil > now →
      (checkPass1 now keys s).1 = false by
    unfold checkRateLimitKeys
    rcases hp : checkPass1 now keys s with ⟨b, s'⟩
    have := h keys s hk hb
    rw [hp] at this
    simp at this
    subst this
    simp
  intro keys
  induction keys with
  | nil => intro s h; simp at h
  | cons k0 ks ih =>
    intro s hk hb
    rcases List.mem_cons.mp hk with rfl | hmem
    · have hb' : (pruneEntry (s k) now).blockedUntil > now := hb
      simp only [checkPass1, if_pos hb']
    · by_cases hb0 : (pruneEntry (s k0) now).blockedUntil > now
      · simp only [checkPass1, if_pos hb0]
      · by_cases hs0 : (pruneEntry (s k0) now).short.length ≥ RATE_SHORT_MAX
        · simp only [checkPass1, if_neg hb0, if_pos hs0]
        · by_cases hm0 : (pruneEntry (s k0) now).medium.length ≥ RATE_MEDIUM_MAX
          · simp only [checkPass1, if_neg hb0, if_neg hs0, if_pos hm0]
          · by_cases hd0 : (pruneEntry (s k0) now).daily.length ≥ RATE_DAILY_MAX
            · simp only [checkPass1, if_neg hb0, if_neg hs0, if_neg hm0, if_pos hd0]
            · simp only [checkPass1, if_neg hb0, if_neg hs0, if_neg hm0, if_neg hd0]
              refine ih _ hmem ?_
              by_cases hkk : k = k0
              · subst hkk; rw [updState_self, pruneEntry_blockedUntil]; exact hb
              · rw [updState_other _ _ _ _ hkk]; exact hb

/-- A single-key check on an unblocked, strike-free entry whose three windows
hold the same still-young list accepts and appends the timestamp. -/
theorem accept_step_uniform (k : String) (s : RateState) (l : List Nat) (now : Nat)
    (hk : s k = ⟨l, l, l, 0, 0⟩) (hlen : l.length < RATE_SHORT_MAX)
    (hyoung : ∀ t ∈ l, now - t < RATE_SHORT_WINDOW) :
    checkRateLimitKeys [k] now s =
      (true, updState s k ⟨l ++ [now], l ++ [now], l ++ [now], 0, 0⟩) := by
  have hprune : pruneEntry (s k) now = ⟨l, l, l, 0, 0⟩ := by
    rw [hk]; exact pruneEntry_uniform l 0 0 now hyoung
  have hres := check_single_accept k now s
    (by rw [hk]; simp)
    (by rw [hprune]; exact hlen)
    (by rw [hprune]; simp only [RATE_SHORT_MAX] at hlen; simp only [RATE_MEDIUM_MAX]; omega)
    (by rw [hprune]; simp only [RATE_SHORT_MAX] at hlen; simp only [RATE_DAILY_MAX]; omega)
  rw [hres, hprune]
  rfl

/-- A single-key check on an unblocked entry whose pruned short window is at
capacity is rejected. -/
theorem reject_step_uniform (k : String) (s : RateState) (l : List Nat)
    (bs : Nat) (now : Nat)
    (hk : s k = ⟨l, l, l, bs, 0⟩) (hlen : l.length ≥ RATE_SHORT_MAX)
    (hyoung : ∀ t ∈ l, now - t < RATE_SHORT_WINDOW) :
    checkRateLimitKeys [k] now s =
      (false, updState s k (strikeUpdate ⟨l, l, l, bs, 0⟩ now)) := by
  have hprune : pruneEntry (s k) now = ⟨l, l, l, bs, 0⟩ := by
    rw [hk]; exact pruneEntry_uniform l bs 0 now hyoung
  have hres := check_single_short_reject k now s
    (by rw [hk]; simp)
    (by rw [hprune]; exact hlen)
  rw [hres, hprune]

/-- The three windows of `a` are sublists of those of `b` (no new element,
in particular the current event was not recorded). -/
def windowsSub (a b : RateEntry) : Prop :=
  a.short.Sublist b.short ∧ a.medium.Sublist b.medium ∧ a.daily.Sublist b.daily

theorem windowsSub_refl (a : RateEntry) : windowsSub a a :=
  ⟨List.Sublist.refl _, List.Sublist.refl _, List.Sublist.refl _⟩

theorem windowsSub_trans {a b c : RateEntry} (h1 : windowsSub a b) (h2 : windowsSub b c) :
    windowsSub a c :=
  ⟨h1.1.trans h2.1, h1.2.1.trans h2.2.1, h1.2.2.trans h2.2.2⟩

theorem pruneEntry_windowsSub (e : RateEntry) (now : Nat) :
    windowsSub (pruneEntry e now) e :=
  ⟨List.filter_sublist _, List.filter_sublist _, List.filter_sublist _⟩

theorem strikeUpdate_short (e : RateEntry) (now : Nat) :
    (strikeUpdate e now).short = e.short := by
  unfold strikeUpdate; split <;> rfl

theorem strikeUpdate_medium (e : RateEntry) (now : Nat) :
    (strikeUpdate e now).medium = e.medium := by
  unfold strikeUpdate; split <;> rfl

theorem strikeUpdate_daily (e : RateEntry) (now : Nat) :
    (strikeUpdate e now).daily = e.daily := by
  unfold strikeUpdate; split <;> rfl

/-- A failing first pass never appends to any window of any key: every
window of the resulting table is a sublist of what it was. -/
theorem pass1_false_windowsSub (now : Nat) :
    ∀ (keys : List String) (s : RateState), (checkPass1 now keys s).1 = false →
      ∀ k, windowsSub ((checkPass1 now keys s).2 k) (s k) := by
  intro keys
  induction keys with
  | nil => intro s h; simp [checkPass1] at h
  | cons k0 ks ih =>
    intro s hf k
    by_cases hkk : k = k0
    case pos =>
      subst hkk
      by_cases hb : (pruneEntry (s k) now).blockedUntil > now
      · simp only [checkPass1, if_pos hb, updState_self]
        exact pruneEntry_windowsSub _ _
      · by_cases hs : (pruneEntry (s k) now).short.length ≥ RATE_SHORT_MAX
        · simp only [checkPass1, if_neg hb, if_pos hs, updState_self]
          refine windowsSub_trans ?_ (pruneEntry_windowsSub (s k) now)
          rw [windowsSub, strikeUpdate_short, strikeUpdate_medium, strikeUpdate_daily]
          exact windowsSub_refl _
        · by_cases hm : (pruneEntry (s k) now).medium.length ≥ RATE_MEDIUM_MAX
          · simp only [checkPass1, if_neg hb, if_neg hs, if_pos hm, updState_self]
            exact pruneEntry_windowsSub _ _
          · by_cases hd : (pruneEntry (s k) now).daily.length ≥ RATE_DAILY_MAX
            · simp only [checkPass1, if_neg hb, if_neg hs, if_neg hm, if_pos hd, updState_self]
              exact pruneEntry_windowsSub _ _
            · simp only [checkPass1, if_neg hb, if_neg hs, if_neg hm, if_neg hd] at hf ⊢
              refine windowsSub_trans (ih _ hf k) ?_
              rw [updState_self]
              exact pruneEntry_windowsSub _ _
    case neg =>
      by_cases hb : (pruneEntry (s k0) now).blockedUntil > now
      · simp only [checkPass1, if_pos hb, updState_other _ _ _ _ hkk]
        exact windowsSub_refl _
      · by_cases hs : (pruneEntry (s k0) now).short.length ≥ RATE_SHORT_MAX
        · simp only [checkPass1, if_neg hb, if_pos hs, updState_other _ _ _ _ hkk]
          exact windowsSub_refl _
        · by_cases hm : (pruneEntry (s k0) now).medium.length ≥ RATE_MEDIUM_MAX
          · simp only [checkPass1, if_neg hb, if_neg hs, if_pos hm, updState_other _ _ _ _ hkk]
            exact windowsSub_refl _
          · by_cases hd : (pruneEntry (s k0) now).daily.length ≥ RATE_DAILY_MAX
            · simp only [checkPass1, if_neg hb, if_neg hs, if_neg hm, if_pos hd,
                updState_other _ _ _ _ hkk]
              exact windowsSub_refl _
            · simp only [checkPass1, if_neg hb, if_neg hs, if_neg hm, if_neg hd] at hf ⊢
              refine windowsSub_trans (ih _ hf k) ?_
              rw [updState_other _ _ _ _ hkk]
              exact windowsSub_refl _

/-- Keys outside the checked list are untouched by the first pass. -/
theorem pass1_notmem (now : Nat) :
    ∀ (keys : List String) (s : RateState) (k : String), k ∉ keys →
      (checkPass1 now keys s).2 k = s k := by
  intro keys
  induction keys with
  | nil => intro s k _; rfl
  | cons k0 ks ih =>
    intro s k hk
    have hne : k ≠ k0 := fun h => hk (h ▸ List.mem_cons_self k0 ks)
    have hks : k ∉ ks := fun h => hk (List.mem_cons_of_mem _ h)
    by_cases hb : (pruneEntry (s k0) now).blockedUntil > now
    · simp only [checkPass1, if_pos hb, updState_other _ _ _ _ hne]
    · by_cases hs : (pruneEntry (s k0) now).short.length ≥ RATE_SHORT_MAX
      · simp only [checkPass1, if_neg hb, if_pos hs, updState_other _ _ _ _ hne]
      · by_cases hm : (pruneEntry (s k0) now).medium.length ≥ RATE_MEDIUM_MAX
        · simp only [checkPass1, if_neg hb, if_neg hs, if_pos hm, updState_other _ _ _ _ hne]
        · by_cases hd : (pruneEntry (s k0) now).daily.length ≥ RATE_DAILY_MAX
          · simp only [checkPass1, if_neg hb, if_neg hs, if_neg hm, if_pos hd,
              updState_other _ _ _ _ hne]
          · simp only [checkPass1, if_neg hb, if_neg hs, if_neg hm, if_neg hd]
            rw [ih _ _ hks, updState_other _ _ _ _ hne]

/-- On a passing first pass over distinct keys, every checked key holds its
pruned entry. -/
theorem pass1_true_mem (now : Nat) :
    ∀ (keys : List String) (s : RateState) (k : String), keys.Nodup → k ∈ keys →
      (checkPass1 now keys s).1 = true →
      (checkPass1 now keys s).2 k = pruneEntry (s k) now := by
  intro keys
  induction keys with
  | nil => intro s k _ hk; simp at hk
  | cons k0 ks ih =>
    intro s k hnd hk ht
    by_cases hb : (pruneEntry (s k0) now).blockedUntil > now
    · simp [checkPass1, if_pos hb] at ht
    · by_cases hs : (pruneEntry (s k0) now).short.length ≥ RATE_SHORT_MAX
      · simp [checkPass1, if_neg hb, if_pos hs] at ht
      · by_cases hm : (pruneEntry (s k0) now).medium.length ≥ RATE_MEDIUM_MAX
        · simp [checkPass1, if_neg hb, if_neg hs, if_pos hm] at ht
        · by_cases hd : (pruneEntry (s k0) now).daily.length ≥ RATE_DAILY_MAX
          · simp [checkPass1, if_neg hb, if_neg hs, if_neg hm, if_pos hd] at ht
          · simp only [checkPass1, if_neg hb, if_neg hs, if_neg hm, if_neg hd] at ht ⊢
            rcases List.mem_cons.mp hk with rfl | hmem
            · have hk0 : k ∉ ks := (List.nodup_cons.mp hnd).1
              rw [pass1_notmem now ks _ k hk0, updState_self]
            · have hne : k ≠ k0 := by
                intro h
                exact (List.nodup_cons.mp hnd).1 (h ▸ hmem)
              rw [ih _ _ (List.nodup_cons.mp hnd).2 hmem ht,
                updState_other _ _ _ _ hne]

/-- The first pass never changes the strike counter or the block deadline of
any key when it succeeds. -/
theorem pass1_true_frame (now : Nat) :
    ∀ (keys : List String) (s : RateState), (checkPass1 now keys s).1 = true →
      ∀ k, ((checkPass1 now keys s).2 k).burstStrikes = (s k).burstStrikes ∧
           ((checkPass1 now keys s).2 k).blockedUntil = (s k).blockedUntil := by
  intro keys
  induction keys with
  | nil => intro s _ k; exact ⟨rfl, rfl⟩
  | cons k0 ks ih =>
    intro s ht k
    by_cases hb : (pruneEntry (s k0) now).blockedUntil > now
    · simp [checkPass1, if_pos hb] at ht
    · by_cases hs : (pruneEntry (s k0) now).short.length ≥ RATE_SHORT_MAX
      · simp [checkPass1, if_neg hb, if_pos hs] at ht
      · by_cases hm : (pruneEntry (s k0) now).medium.length ≥ RATE_MEDIUM_MAX
        · simp [checkPass1, if_neg hb, if_neg hs, if_pos hm] at ht
        · by_cases hd : (pruneEntry (s k0) now).daily.length ≥ RATE_DAILY_MAX
          · simp [checkPass1, if_neg hb, if_neg hs, if_neg hm, if_pos hd] at ht
          · simp only [checkPass1, if_neg hb, if_neg hs, if_neg hm, if_neg hd] at ht ⊢
            have := ih (updState s k0 (pruneEntry (s k0) now)) ht k
            by_cases hkk : k = k0
            · subst hkk
              rw [updState_self] at this
              exact ⟨this.1, this.2⟩
            · rw [updState_other _ _ _ _ hkk] at this
              exact this

/-- Keys outside the checked list are untouched by the recording pass. -/
theorem recordAll_notmem (now : Nat) :
    ∀ (keys : List String) (s : RateState) (k : String), k ∉ keys →
      recordAll now keys s k = s k := by
  intro keys
  induction keys with
  | nil => intro s k _; rfl
  | cons k0 ks ih =>
    intro s k hk
    have hne : k ≠ k0 := fun h => hk (h ▸ List.mem_cons_self k0 ks)
    have hks : k ∉ ks := fun h => hk (List.mem_cons_of_mem _ h)
    show recordAll now ks (updState s k0 (pushNow (s k0) now)) k = _
    rw [ih _ _ hks, updState_other _ _ _ _ hne]

/-- The recording pass appends the timestamp to the three windows of every
(distinct) checked key. -/
theorem recordAll_mem (now : Nat) :
    ∀ (keys : List String) (s : RateState) (k : String), keys.Nodup → k ∈ keys →
      recordAll now keys s k = pushNow (s k) now := by
  intro keys
  induction keys with
  | nil => intro s k _ hk; simp at hk
  | cons k0 ks ih =>
    intro s k hnd hk
    rcases List.mem_cons.mp hk with rfl | hmem
    · have hk0 : k ∉ ks := (List.nodup_cons.mp hnd).1
      show recordAll now ks (updState s k (pushNow (s k) now)) k = _
      rw [recordAll_notmem now ks _ k hk0, updState_self]
    · have hne : k ≠ k0 := by
        intro h
        exact (List.nodup_cons.mp hnd).1 (h ▸ hmem)
      show recordAll now ks (updState s k0 (pushNow (s k0) now)) k = _
      rw [ih _ _ (List.nodup_cons.mp hnd).2 hmem, updState_other _ _ _ _ hne]

/-- The recording pass changes no strike counter or block deadline. -/
theorem recordAll_frame (now : Nat) :
    ∀ (keys : List String) (s : RateState) (k : String),
      (recordAll now keys s k).burstStrikes = (s k).burstStrikes ∧
      (recordAll now keys s k).blockedUntil = (s k).blockedUntil := by
  intro keys
  induction keys with
  | nil => intro s k; exact ⟨rfl, rfl⟩
  | cons k0 ks ih =>
    intro s k
    show (recordAll now ks (updState s k0 (pushNow (s k0) now)) k).burstStrikes = _ ∧
      (recordAll now ks (updState s k0 (pushNow (s k0) now)) k).blockedUntil = _
    have := ih (updState s k0 (pushNow (s k0) now)) k
    by_cases hkk : k = k0
    · subst hkk
      rw [updState_self] at this
      exact this
    · rw [updState_other _ _ _ _ hkk] at this
      exact this

/-- If every (distinct) key independently passes all four tests, the first
pass succeeds. -/
theorem pass1_all_pass (now : Nat) :
    ∀ (keys : List String) (s : RateState), keys.Nodup →
      (∀ k ∈ keys, ¬ (s k).blockedUntil > now ∧
        (pruneEntry (s k) now).short.length < RATE_SHORT_MAX ∧
        (pruneEntry (s k) now).medium.length < RATE_MEDIUM_MAX ∧
        (pruneEntry (s k) now).daily.length < RATE_DAILY_MAX) →
      (checkPass1 now keys s).1 = true := by
  intro keys
  induction keys with
  | nil => intro s _ _; rfl
  | cons k0 ks ih =>
    intro s hnd hall
    obtain ⟨hb, hs, hm, hd⟩ := hall k0 (List.mem_cons_self k0 ks)
    have hb' : ¬ (pruneEntry (s k0) now).blockedUntil > now := hb
    simp only [checkPass1, if_neg hb', if_neg (by omega : ¬ (pruneEntry (s k0) now).short.length ≥ RATE_SHORT_MAX),
      if_neg (by omega : ¬ (pruneEntry (s k0) now).medium.length ≥ RATE_MEDIUM_MAX),
      if_neg (by omega : ¬ (pruneEntry (s k0) now).daily.length ≥ RATE_DAILY_MAX)]
    refine ih _ (List.nodup_cons.mp hnd).2 ?_
    intro k hk
    have hne : k ≠ k0 := by
      intro h
      exact (List.nodup_cons.mp hnd).1 (h ▸ hk)
    rw [updState_other _ _ _ _ hne]
    exact hall k (List.mem_cons_of_mem _ hk)

/-- If some checked key is inside an active block or has a pruned window at
capacity, the first pass fails. -/
theorem pass1_fails_of_bad (now : Nat) :
    ∀ (keys : List String) (s : RateState) (k : String), k ∈ keys →
      ((s k).blockedUntil > now ∨
       (pruneEntry (s k) now).short.length ≥ RATE_SHORT_MAX ∨
       (pruneEntry (s k) now).medium.length ≥ RATE_MEDIUM_MAX ∨
       (pruneEntry (s k) now).daily.length ≥ RATE_DAILY_MAX) →
      (checkPass1 now keys s).1 = false := by
  intro keys
  induction keys with
  | nil => intro s k hk _; simp at hk
  | cons k0 ks ih =>
    intro s k hk hbad
    by_cases hb : (pruneEntry (s k0) now).blockedUntil > now
    · simp only [checkPass1, if_pos hb]
    · by_cases hs : (pruneEntry (s k0) now).short.length ≥ RATE_SHORT_MAX
      · simp only [checkPass1, if_neg hb, if_pos hs]
      · by_cases hm : (pruneEntry (s k0) now).medium.length ≥ RATE_MEDIUM_MAX
        · simp only [checkPass1, if_neg hb, if_neg hs, if_pos hm]
        · by_cases hd : (pruneEntry (s k0) now).daily.length ≥ RATE_DAILY_MAX
          · simp only [checkPass1, if_neg hb, if_neg hs, if_neg hm, if_pos hd]
          · simp only [checkPass1, if_neg hb, if_neg hs, if_neg hm, if_neg hd]
            rcases List.mem_cons.mp hk with rfl | hmem
            · exfalso
              rcases hbad with h | h | h | h
              · exact hb h
              · exact hs h
              · exact hm h
              · exact hd h
            · by_cases hkk : k = k0
              · subst hkk
                exfalso
                rcases hbad with h | h | h | h
                · exact hb h
                · exact hs h
                · exact hm h
                · exact hd h
              · refine ih _ _ hmem ?_
                rw [updState_other _ _ _ _ hkk]
                exact hbad

theorem runChecks_fst_cons (keys : List String) (n : Nat) (ns : List Nat) (s : RateState) :
    (runChecks keys (n :: ns) s).1 =
      (checkRateLimitKeys keys n s).1 ::
        (runChecks keys ns (checkRateLimitKeys keys n s).2).1 := rfl

theorem runChecks_fst_nil (keys : List String) (s : RateState) :
    (runChecks keys [] s).1 = [] := rfl

theorem runChecks_snd_cons (keys : List String) (n : Nat) (ns : List Nat) (s : RateState) :
    (runChecks keys (n :: ns) s).2 =
      (runChecks keys ns (checkRateLimitKeys keys n s).2).2 := rfl

theorem runChecks_snd_nil (keys : List String) (s : RateState) :
    (runChecks keys [] s).2 = s := rfl

/-! ### Claim C2 -/

/-- **C2**: for a rate-limit key with no prior history, a sequence of
`checkRateLimitKeys` calls on that single key accepts exactly 5 events within
any 10-second span and rejects the 6th check inside that span: the short
window keeps only timestamps younger than 10 seconds and a check fails once 5
such timestamps are recorded. -/
theorem C2_short_window_five_per_span
    (k : String) (s : RateState) (t1 t2 t3 t4 t5 t6 : Nat)
    (h0 : s k = emptyRateEntry)
    (h12 : t1 ≤ t2) (h23 : t2 ≤ t3) (h34 : t3 ≤ t4) (h45 : t4 ≤ t5) (h56 : t5 ≤ t6)
    (hspan : t6 < t1 + RATE_SHORT_WINDOW) :
    (runChecks [k] [t1, t2, t3, t4, t5, t6] s).1 =
      [true, true, true, true, true, false] := by
  simp only [RATE_SHORT_WINDOW] at hspan
  simp only [runChecks_fst_cons, runChecks_fst_nil]
  have st1 := accept_step_uniform k s [] t1 h0
    (by simp [RATE_SHORT_MAX]) (by intro t ht; simp at ht)
  rw [st1]
  simp only [List.nil_append, List.cons_append]
  set S1 : RateState := updState s k ⟨[t1], [t1], [t1], 0, 0⟩ with hS1
  have st2 := accept_step_uniform k S1 [t1] t2 (by rw [hS1]; exact updState_self ..)
    (by simp [RATE_SHORT_MAX])
    (by
      intro t ht
      simp only [List.mem_singleton] at ht
      subst ht
      simp only [RATE_SHORT_WINDOW]
      omega)
  rw [st2]
  simp only [List.nil_append, List.cons_append]
  set S2 : RateState := updState S1 k ⟨[t1, t2], [t1, t2], [t1, t2], 0, 0⟩ with hS2
  have st3 := accept_step_uniform k S2 [t1, t2] t3 (by rw [hS2]; exact updState_self ..)
    (by simp [RATE_SHORT_MAX])
    (by
      intro t ht
      simp only [List.mem_cons, List.mem_singleton, List.not_mem_nil, or_false] at ht
      rcases ht with rfl | rfl <;> simp only [RATE_SHORT_WINDOW] <;> omega)
  rw [st3]
  simp only [List.nil_append, List.cons_append]
  set S3 : RateState := updState S2 k ⟨[t1, t2, t3], [t1, t2, t3], [t1, t2, t3], 0, 0⟩ with hS3
  have st4 := accept_step_uniform k S3 [t1, t2, t3] t4 (by rw [hS3]; exact updState_self ..)
    (by simp [RATE_SHORT_MAX])
    (by
      intro t ht
      simp only [List.mem_cons, List.mem_singleton, List.not_mem_nil, or_false] at ht
      rcases ht with rfl | rfl | rfl <;> simp only [RATE_SHORT_WINDOW] <;> omega)
  rw [st4]
  simp only [List.nil_append, List.cons_append]
  set S4 : RateState :=
    updState S3 k ⟨[t1, t2, t3, t4], [t1, t2, t3, t4], [t1, t2, t3, t4], 0, 0⟩ with hS4
  have st5 := accept_step_uniform k S4 [t1, t2, t3, t4] t5 (by rw [hS4]; exact updState_self ..)
    (by simp [RATE_SHORT_MAX])
    (by
      intro t ht
      simp only [List.mem_cons, List.mem_singleton, List.not_mem_nil, or_false] at ht
      rcases ht with rfl | rfl | rfl | rfl <;> simp only [RATE_SHORT_WINDOW] <;> omega)
  rw [st5]
  simp only [List.nil_append, List.cons_append]
  set S5 : RateState :=
    updState S4 k
      ⟨[t1, t2, t3, t4, t5], [t1, t2, t3, t4, t5], [t1, t2, t3, t4, t5], 0, 0⟩ with hS5
  have st6 := reject_step_uniform k S5 [t1, t2, t3, t4, t5] 0 t6
    (by rw [hS5]; exact updState_self ..)
    (by simp [RATE_SHORT_MAX])
    (by
      intro t ht
      simp only [List.mem_cons, List.mem_singleton, List.not_mem_nil, or_false] at ht
      rcases ht with rfl | rfl | rfl | rfl | rfl <;> simp only [RATE_SHORT_WINDOW] <;> omega)
  rw [st6]

/-- Witness for C2 at concrete inputs: six checks at times 0,1,2,3,4,5 ms. -/
theorem C2_short_window_five_per_span_witness :
    (runChecks ["site:a:ip:1.2.3.4"] [0, 1, 2, 3, 4, 5]
        (fun _ => emptyRateEntry)).1 =
      [true, true, true, true, true, false] :=
  C2_short_window_five_per_span "site:a:ip:1.2.3.4" (fun _ => emptyRateEntry)
    0 1 2 3 4 5 rfl (by decide) (by decide) (by decide) (by decide) (by decide)
    (by decide)

/-! ### Claims C3, C4, C10 -/

/-- **C3**: `checkRateLimitKeys` is all-or-nothing.  If any key is inside an
active block or has a (pruned) window at capacity, the call returns `false`,
and on a `false` result no key's three timestamp windows gain the event (they
only shrink by pruning); on a `true` result the current timestamp is appended
to all three windows of every key; and if every key independently passes all
four tests, the call returns `true`. -/
theorem C3_check_all_or_nothing (keys : List String) (now : Nat) (s : RateState) :
    (∀ s', checkRateLimitKeys keys now s = (false, s') →
      ∀ k, windowsSub (s' k) (s k)) ∧
    (keys.Nodup → ∀ s', checkRateLimitKeys keys now s = (true, s') →
      (∀ k ∈ keys, s' k = pushNow (pruneEntry (s k) now) now) ∧
      (∀ k ∉ keys, s' k = s k)) ∧
    (keys.Nodup →
      (∀ k ∈ keys, ¬ (s k).blockedUntil > now ∧
        (pruneEntry (s k) now).short.length < RATE_SHORT_MAX ∧
        (pruneEntry (s k) now).medium.length < RATE_MEDIUM_MAX ∧
        (pruneEntry (s k) now).daily.length < RATE_DAILY_MAX) →
      (checkRateLimitKeys keys now s).1 = true) ∧
    (∀ k ∈ keys,
      ((s k).blockedUntil > now ∨
       (pruneEntry (s k) now).short.length ≥ RATE_SHORT_MAX ∨
       (pruneEntry (s k) now).medium.length ≥ RATE_MEDIUM_MAX ∨
       (pruneEntry (s k) now).daily.length ≥ RATE_DAILY_MAX) →
      (checkRateLimitKeys keys now s).1 = false) := by
  refine ⟨?_, ?_, ?_, ?_⟩
  · intro s' hres k
    rcases hp : checkPass1 now keys s with ⟨b, s1⟩
    unfold checkRateLimitKeys at hres
    rw [hp] at hres
    cases b
    · injection hres with _ h2
      subst h2
      have hf : (checkPass1 now keys s).1 = false := by rw [hp]
      have hsub := pass1_false_windowsSub now keys s hf k
      rw [hp] at hsub
      exact hsub
    · injection hres with h1 _
      exact absurd h1.symm (by simp)
  · intro hnd s' hres
    rcases hp : checkPass1 now keys s with ⟨b, s1⟩
    unfold checkRateLimitKeys at hres
    rw [hp] at hres
    cases b
    · injection hres with h1 _
      exact absurd h1 (by simp)
    · injection hres with _ h2
      subst h2
      have ht : (checkPass1 now keys s).1 = true := by rw [hp]
      constructor
      · intro k hk
        rw [recordAll_mem now keys s1 k hnd hk]
        have hmem := pass1_true_mem now keys s k hnd hk ht
        rw [hp] at hmem
        dsimp only at hmem
        rw [hmem]
      · intro k hk
        rw [recordAll_notmem now keys s1 k hk]
        have hnm := pass1_notmem now keys s k hk
        rw [hp] at hnm
        exact hnm
  · intro hnd hall
    have ht := pass1_all_pass now keys s hnd hall
    unfold checkRateLimitKeys
    rcases hp : checkPass1 now keys s with ⟨b, s1⟩
    rw [hp] at ht
    subst ht
    rfl
  · intro k hk hbad
    have hf := pass1_fails_of_bad now keys s k hk hbad
    unfold checkRateLimitKeys
    rcases hp : checkPass1 now keys s with ⟨b, s1⟩
    rw [hp] at hf
    dsimp only at hf
    subst hf
    rfl

/-- Witness for C3 at concrete inputs: a two-key check from fresh state
passes and records the timestamp on the first key, and a check on a key whose
short window is at capacity returns `false`. -/
theorem C3_check_all_or_nothing_witness :
    (checkRateLimitKeys ["a", "b"] 0 (fun _ => emptyRateEntry)).1 = true ∧
    (checkRateLimitKeys ["a", "b"] 0 (fun _ => emptyRateEntry)).2 "a" =
      pushNow (pruneEntry emptyRateEntry 0) 0 ∧
    (checkRateLimitKeys ["full"] 1
      (fun _ => ⟨[0, 0, 0, 0, 0], [0, 0, 0, 0, 0], [0, 0, 0, 0, 0], 0, 0⟩)).1 = false := by
  have h := C3_check_all_or_nothing ["a", "b"] 0 (fun _ => emptyRateEntry)
  have hfull := C3_check_all_or_nothing ["full"] 1
    (fun _ => ⟨[0, 0, 0, 0, 0], [0, 0, 0, 0, 0], [0, 0, 0, 0, 0], 0, 0⟩)
  have hnd : (["a", "b"] : List String).Nodup := by decide
  have htrue := h.2.2.1 hnd (by
    intro k hk
    refine ⟨by simp [emptyRateEntry], ?_, ?_, ?_⟩ <;>
      simp [pruneEntry, emptyRateEntry, RATE_SHORT_MAX, RATE_MEDIUM_MAX, RATE_DAILY_MAX])
  have hres : checkRateLimitKeys ["a", "b"] 0 (fun _ => emptyRateEntry) =
      (true, (checkRateLimitKeys ["a", "b"] 0 (fun _ => emptyRateEntry)).2) := by
    rw [← htrue]
  refine ⟨htrue, (h.2.1 hnd _ hres).1 "a" (by simp), ?_⟩
  exact hfull.2.2.2 "full" (by simp) (Or.inr (Or.inl (by decide)))

/-- **C4**: three consecutive short-window rejections set a 60-second block
and reset the violation counter, and while a block is active every check on
that key fails, whatever its windows contain. -/
theorem C4_burst_cooldown (k : String) (s : RateState) (l : List Nat) (n1 n2 n3 : Nat)
    (h0 : s k = ⟨l, l, l, 0, 0⟩) (hlen : l.length ≥ RATE_SHORT_MAX)
    (h12 : n1 ≤ n2) (h23 : n2 ≤ n3)
    (hyoung : ∀ t ∈ l, n3 - t < RATE_SHORT_WINDOW) :
    (runChecks [k] [n1, n2, n3] s).1 = [false, false, false] ∧
    ((runChecks [k] [n1, n2, n3] s).2 k).blockedUntil = n3 + BURST_COOLDOWN ∧
    ((runChecks [k] [n1, n2, n3] s).2 k).burstStrikes = 0 ∧
    (∀ n4, n4 < n3 + BURST_COOLDOWN →
      (checkRateLimitKeys [k] n4 ((runChecks [k] [n1, n2, n3] s).2)).1 = false) ∧
    (∀ (keys : List String) (now : Nat) (st : RateState) (j : String),
      j ∈ keys → (st j).blockedUntil > now →
        (checkRateLimitKeys keys now st).1 = false) := by
  have hy1 : ∀ t ∈ l, n1 - t < RATE_SHORT_WINDOW := by
    intro t ht
    have := hyoung t ht
    omega
  have hy2 : ∀ t ∈ l, n2 - t < RATE_SHORT_WINDOW := by
    intro t ht
    have := hyoung t ht
    omega
  have st1 := reject_step_uniform k s l 0 n1 h0 hlen hy1
  have hsu1 : strikeUpdate (⟨l, l, l, 0, 0⟩ : RateEntry) n1 = ⟨l, l, l, 1, 0⟩ := by
    simp [strikeUpdate, BURST_STRIKE_THRESHOLD]
  rw [hsu1] at st1
  set T1 : RateState := updState s k ⟨l, l, l, 1, 0⟩ with hT1
  have st2 := reject_step_uniform k T1 l 1 n2 (by rw [hT1]; exact updState_self ..) hlen hy2
  have hsu2 : strikeUpdate (⟨l, l, l, 1, 0⟩ : RateEntry) n2 = ⟨l, l, l, 2, 0⟩ := by
    simp [strikeUpdate, BURST_STRIKE_THRESHOLD]
  rw [hsu2] at st2
  set T2 : RateState := updState T1 k ⟨l, l, l, 2, 0⟩ with hT2
  have st3 := reject_step_uniform k T2 l 2 n3 (by rw [hT2]; exact updState_self ..) hlen hyoung
  have hsu3 : strikeUpdate (⟨l, l, l, 2, 0⟩ : RateEntry) n3 =
      ⟨l, l, l, 0, n3 + BURST_COOLDOWN⟩ := by
    simp [strikeUpdate, BURST_STRIKE_THRESHOLD]
  rw [hsu3] at st3
  set T3 : RateState := updState T2 k ⟨l, l, l, 0, n3 + BURST_COOLDOWN⟩ with hT3
  have hfst : (runChecks [k] [n1, n2, n3] s).1 = [false, false, false] := by
    simp only [runChecks_fst_cons, runChecks_fst_nil, st1, st2, st3]
  have hsnd : (runChecks [k] [n1, n2, n3] s).2 = T3 := by
    simp only [runChecks_snd_cons, runChecks_snd_nil, st1, st2, st3]
  have hT3k : T3 k = ⟨l, l, l, 0, n3 + BURST_COOLDOWN⟩ := by
    rw [hT3]; exact updState_self ..
  refine ⟨hfst, ?_, ?_, ?_, ?_⟩
  · rw [hsnd, hT3k]
  · rw [hsnd, hT3k]
  · intro n4 h4
    rw [hsnd]
    exact check_blocked_fails [k] n4 T3 k (List.mem_singleton.mpr rfl)
      (by rw [hT3k]; exact h4)
  · intro keys now st j hj hb
    exact check_blocked_fails keys now st j hj hb

/-- Witness for C4 at concrete inputs: a key whose short window already holds
five fresh timestamps is rejected three times and then blocked. -/
theorem C4_burst_cooldown_witness :
    (runChecks ["k"] [1, 1, 1]
        (fun _ => ⟨[0, 0, 0, 0, 0], [0, 0, 0, 0, 0], [0, 0, 0, 0, 0], 0, 0⟩)).1 =
      [false, false, false] ∧
    ((runChecks ["k"] [1, 1, 1]
        (fun _ => ⟨[0, 0, 0, 0, 0], [0, 0, 0, 0, 0], [0, 0, 0, 0, 0], 0, 0⟩)).2 "k").blockedUntil =
      1 + BURST_COOLDOWN := by
  have h := C4_burst_cooldown "k"
    (fun _ => ⟨[0, 0, 0, 0, 0], [0, 0, 0, 0, 0], [0, 0, 0, 0, 0], 0, 0⟩)
    [0, 0, 0, 0, 0] 1 1 1 rfl (by decide) (by decide) (by decide) (by decide)
  exact ⟨h.1, h.2.1⟩

/-- **C10**: a `checkRateLimitKeys` call that returns `true` leaves every
key's burst-strike counter and block deadline unchanged and only appends the
timestamp to the three windows; in particular strikes accumulate across
intervening successful checks, as the concrete run in the second conjunct
shows (two rejections, five interleaved accepted checks, then a third
rejection that triggers the 60-second block). -/
theorem C10_success_frame (keys : List String) (now : Nat) (s : RateState) :
    (∀ s', checkRateLimitKeys keys now s = (true, s') →
      (∀ k, (s' k).burstStrikes = (s k).burstStrikes ∧
            (s' k).blockedUntil = (s k).blockedUntil) ∧
      (keys.Nodup → ∀ k ∈ keys, s' k = pushNow (pruneEntry (s k) now) now) ∧
      (∀ k ∉ keys, s' k = s k)) ∧
    ((runChecks ["k"] [0, 0, 0, 0, 0, 1, 2, 10000, 10001, 10002, 10003, 10004, 10005]
        (fun _ => emptyRateEntry)).1 =
      [true, true, true, true, true, false, false,
       true, true, true, true, true, false] ∧
     ((runChecks ["k"] [0, 0, 0, 0, 0, 1, 2, 10000, 10001, 10002, 10003, 10004, 10005]
        (fun _ => emptyRateEntry)).2 "k").blockedUntil = 70005) := by
  constructor
  · intro s' hres
    rcases hp : checkPass1 now keys s with ⟨b, s1⟩
    unfold checkRateLimitKeys at hres
    rw [hp] at hres
    cases b
    · injection hres with h1 _
      exact absurd h1 (by simp)
    · injection hres with _ h2
      subst h2
      have ht : (checkPass1 now keys s).1 = true := by rw [hp]
      refine ⟨?_, ?_, ?_⟩
      · intro k
        have hframe1 := pass1_true_frame now keys s ht k
        rw [hp] at hframe1
        have hframe2 := recordAll_frame now keys s1 k
        exact ⟨hframe2.1.trans hframe1.1, hframe2.2.trans hframe1.2⟩
      · intro hnd k hk
        rw [recordAll_mem now keys s1 k hnd hk]
        have hmem := pass1_true_mem now keys s k hnd hk ht
        rw [hp] at hmem
        dsimp only at hmem
        rw [hmem]
      · intro k hk
        rw [recordAll_notmem now keys s1 k hk]
        have hnm := pass1_notmem now keys s k hk
        rw [hp] at hnm
        exact hnm
  · exact ⟨by decide, by decide⟩

/-- Witness for C10 at concrete inputs: a fresh single-key check passes and
keeps the (zero) strike counter and block deadline. -/
theorem C10_success_frame_witness :
    ((checkRateLimitKeys ["w"] 3 (fun _ => emptyRateEntry)).2 "w").burstStrikes =
      emptyRateEntry.burstStrikes ∧
    ((checkRateLimitKeys ["w"] 3 (fun _ => emptyRateEntry)).2 "w").blockedUntil =
      emptyRateEntry.blockedUntil := by
  have h := (C10_success_frame ["w"] 3 (fun _ => emptyRateEntry)).1
    (checkRateLimitKeys ["w"] 3 (fun _ => emptyRateEntry)).2
    (by rw [Prod.mk.injEq]; exact ⟨by decide, rfl⟩)
  exact h.1 "w"

/-! ## Token sessions (server.ts `validateTokenSession`, db.ts `token_sessions`) -/

/-- One `token_sessions` row.  `revoked_at` is modelled as a `Bool` flag;
`created_at`/`last_seen` are pure audit timestamps with no control flow
(`touchTokenSession` only refreshes `last_seen`) and are omitted. -/
structure SessionRow where
  sub : String
  site : Option String
  origin_host : Option String
  expires_at : Int
  revoked : Bool
deriving DecidableEq, Repr

/-- The token-session store, keyed by `jti` (the SQLite primary key). -/
abbrev SessionStore := String → Option SessionRow

/-- Store update (an `INSERT`/`UPDATE` at one `jti`). -/
def updSession (st : SessionStore) (jti : String) (r : Option SessionRow) : SessionStore :=
  fun j => if j = jti then r else st j

/-- JS `String.prototype.trim`, modelled over the character list (Lean's
own `String.trim` is not reducible by evaluation). -/
def jsTrim (s : String) : String :=
  ⟨((s.data.dropWhile Char.isWhitespace).reverse.dropWhile Char.isWhitespace).reverse⟩

/-- JS `x && x !== y` for a nullable string `x`. -/
def optMismatch (o : Option String) (req : String) : Bool :=
  match o with
  | none => false
  | some h => h != req

/-- JS `a && b && a !== b` for two nullable strings. -/
def bothMismatch : Option String → Option String → Bool
  | some a, some b => a != b
  | _, _ => false

/-- `validateTokenSession(claims, requestOriginHost)`.  `claimOriginHost` and
`claimSite` are the `toHost`-normalised `claims.origin` and `claims.site`
(URL-to-host normalisation is abstracted away: the function receives the
normalised hosts, which are never `some ""`).  First use of a `jti` inserts
the binding row; later uses must match subject and origin host and be neither
revoked nor past the recorded expiry; `touchTokenSession` only refreshes
`last_seen`, so a successful later use leaves the store unchanged here. -/
def validateTokenSession (jtiRaw subRaw : String) (exp : Int)
    (claimOriginHost claimSite : Option String) (requestOriginHost : String)
    (now : Int) (store : SessionStore) : Bool × SessionStore :=
  if (jsTrim jtiRaw) = "" ∨ (jsTrim subRaw) = "" ∨ exp ≤ now then (false, store)
  else if optMismatch claimOriginHost requestOriginHost then (false, store)
  else if optMismatch claimSite requestOriginHost then (false, store)
  else
    match store (jsTrim jtiRaw) with
    | none =>
        (true, updSession store (jsTrim jtiRaw)
          (some ⟨(jsTrim subRaw), some (claimSite.getD requestOriginHost),
            some requestOriginHost, exp, false⟩))
    | some existing =>
        if existing.revoked then (false, store)
        else if existing.sub ≠ (jsTrim subRaw) then (false, store)
        else if existing.expires_at < now then (false, store)
        else if optMismatch existing.origin_host requestOriginHost then (false, store)
        else if bothMismatch existing.site claimSite then (false, store)
        else (true, store)

/-- `revokeTokenSession` (db.ts): mark the row revoked (`UPDATE ... WHERE
jti = ?`; no row, no change). -/
def revokeTokenSession (jti : String) (store : SessionStore) : SessionStore :=
  match store jti with
  | none => store
  | some r => updSession store jti (some { r with revoked := true })

/-- A successful validation against an existing row implies the row matched:
not revoked, same subject, not past the recorded expiry, and any recorded
origin host equals the request's origin host. -/
theorem validate_true_inv (jtiRaw subRaw : String) (exp : Int)
    (cOrig cSite : Option String) (req : String) (now : Int)
    (store : SessionStore) (r : SessionRow)
    (hr : store (jsTrim jtiRaw) = some r)
    (ht : (validateTokenSession jtiRaw subRaw exp cOrig cSite req now store).1 = true) :
    r.revoked = false ∧ r.sub = (jsTrim subRaw) ∧ ¬ r.expires_at < now ∧
    (∀ h, r.origin_host = some h → h = req) := by
  unfold validateTokenSession at ht
  rw [hr] at ht
  by_cases h1 : (jsTrim jtiRaw) = "" ∨ (jsTrim subRaw) = "" ∨ exp ≤ now
  · rw [if_pos h1] at ht; simp at ht
  rw [if_neg h1] at ht
  by_cases h2 : optMismatch cOrig req = true
  · rw [if_pos h2] at ht; simp at ht
  rw [if_neg h2] at ht
  by_cases h3 : optMismatch cSite req = true
  · rw [if_pos h3] at ht; simp at ht
  rw [if_neg h3] at ht
  dsimp only at ht
  by_cases h4 : r.revoked = true
  · rw [if_pos h4] at ht; simp at ht
  rw [if_neg h4] at ht
  by_cases h5 : r.sub ≠ (jsTrim subRaw)
  · rw [if_pos h5] at ht; simp at ht
  rw [if_neg h5] at ht
  by_cases h6 : r.expires_at < now
  · rw [if_pos h6] at ht; simp at ht
  rw [if_neg h6] at ht
  by_cases h7 : optMismatch r.origin_host req = true
  · rw [if_pos h7] at ht; simp at ht
  refine ⟨by simpa using h4, by simpa using h5, h6, ?_⟩
  intro h hh
  by_contra hne
  exact h7 (by simp [optMismatch, hh, hne])

/-- **C1**: the first successful validation of a token id inserts a
TokenSession row binding it to the request's origin host and subject (1);
every later validation of the same token id from a different origin host (2),
with a different subject (3), after revocation (4), or after the recorded
expiry (5) fails; no validation ever alters an existing row, so a token id is
never rebound to a different origin host (6), and revocation preserves the
binding too (7). -/
theorem C1_token_session_binding :
    (∀ (jtiRaw subRaw : String) (exp : Int) (cOrig cSite : Option String)
        (req : String) (now : Int) (store : SessionStore),
      store (jsTrim jtiRaw) = none →
      (jsTrim jtiRaw) ≠ "" → (jsTrim subRaw) ≠ "" → now < exp →
      optMismatch cOrig req = false → optMismatch cSite req = false →
      validateTokenSession jtiRaw subRaw exp cOrig cSite req now store =
        (true, updSession store (jsTrim jtiRaw)
          (some ⟨(jsTrim subRaw), some (cSite.getD req), some req, exp, false⟩))) ∧
    (∀ (jtiRaw subRaw : String) (exp : Int) (cOrig cSite : Option String)
        (req : String) (now : Int) (store : SessionStore) (r : SessionRow) (h : String),
      store (jsTrim jtiRaw) = some r → r.origin_host = some h → h ≠ req →
      (validateTokenSession jtiRaw subRaw exp cOrig cSite req now store).1 = false) ∧
    (∀ (jtiRaw subRaw : String) (exp : Int) (cOrig cSite : Option String)
        (req : String) (now : Int) (store : SessionStore) (r : SessionRow),
      store (jsTrim jtiRaw) = some r → r.sub ≠ (jsTrim subRaw) →
      (validateTokenSession jtiRaw subRaw exp cOrig cSite req now store).1 = false) ∧
    (∀ (jtiRaw subRaw : String) (exp : Int) (cOrig cSite : Option String)
        (req : String) (now : Int) (store : SessionStore) (r : SessionRow),
      store (jsTrim jtiRaw) = some r → r.revoked = true →
      (validateTokenSession jtiRaw subRaw exp cOrig cSite req now store).1 = false) ∧
    (∀ (jtiRaw subRaw : String) (exp : Int) (cOrig cSite : Option String)
        (req : String) (now : Int) (store : SessionStore) (r : SessionRow),
      store (jsTrim jtiRaw) = some r → r.expires_at < now →
      (validateTokenSession jtiRaw subRaw exp cOrig cSite req now store).1 = false) ∧
    (∀ (jtiRaw subRaw : String) (exp : Int) (cOrig cSite : Option String)
        (req : String) (now : Int) (store : SessionStore) (j : String) (r : SessionRow),
      store j = some r →
      (validateTokenSession jtiRaw subRaw exp cOrig cSite req now store).2 j = some r) ∧
    (∀ (jti : String) (store : SessionStore) (j : String) (r : SessionRow),
      store j = some r →
      ∃ r', revokeTokenSession jti store j = some r' ∧
        r'.origin_host = r.origin_host ∧ r'.sub = r.sub ∧
        r'.expires_at = r.expires_at) := by
  refine ⟨?_, ?_, ?_, ?_, ?_, ?_, ?_⟩
  · intro jtiRaw subRaw exp cOrig cSite req now store hnone hjti hsub hexp hc1 hc2
    unfold validateTokenSession
    rw [if_neg (by simp [hjti, hsub]; omega), if_neg (by simp [hc1]),
      if_neg (by simp [hc2]), hnone]
  · intro jtiRaw subRaw exp cOrig cSite req now store r h hr hh hne
    cases hres : (validateTokenSession jtiRaw subRaw exp cOrig cSite req now store).1
    · rfl
    · have := (validate_true_inv jtiRaw subRaw exp cOrig cSite req now store r hr hres).2.2.2 h hh
      exact absurd this hne
  · intro jtiRaw subRaw exp cOrig cSite req now store r hr hne
    cases hres : (validateTokenSession jtiRaw subRaw exp cOrig cSite req now store).1
    · rfl
    · have := (validate_true_inv jtiRaw subRaw exp cOrig cSite req now store r hr hres).2.1
      exact absurd this hne
  · intro jtiRaw subRaw exp cOrig cSite req now store r hr hrev
    cases hres : (validateTokenSession jtiRaw subRaw exp cOrig cSite req now store).1
    · rfl
    · have := (validate_true_inv jtiRaw subRaw exp cOrig cSite req now store r hr hres).1
      rw [hrev] at this
      cases this
  · intro jtiRaw subRaw exp cOrig cSite req now store r hr hexp
    cases hres : (validateTokenSession jtiRaw subRaw exp cOrig cSite req now store).1
    · rfl
    · have := (validate_true_inv jtiRaw subRaw exp cOrig cSite req now store r hr hres).2.2.1
      exact absurd hexp this
  · intro jtiRaw subRaw exp cOrig cSite req now store j r hj
    unfold validateTokenSession
    split_ifs
    · exact hj
    · exact hj
    · exact hj
    · rcases hm : store (jsTrim jtiRaw) with _ | e
      · have hne : j ≠ (jsTrim jtiRaw) := by
          intro h
          rw [h, hm] at hj
          cases hj
        dsimp only
        simp [updSession, hne, hj]
      · dsimp only
        split_ifs <;> exact hj
  · intro jti store j r hj
    unfold revokeTokenSession
    rcases hm : store jti with _ | r0
    · exact ⟨r, hj, rfl, rfl, rfl⟩
    · by_cases hne : j = jti
      · subst hne
        rw [hj] at hm
        injection hm with hm
        subst hm
        refine ⟨{ r with revoked := true }, ?_, rfl, rfl, rfl⟩
        simp [updSession]
      · exact ⟨r, by simp [updSession, hne, hj], rfl, rfl, rfl⟩

/-- Witness for C1 at concrete inputs: token id `jti1` is bound to
`shop.example` on first use and its replay from `evil.example` fails even
though the token is unexpired. -/
theorem C1_token_session_binding_witness :
    (validateTokenSession "jti1" "alice" 100 none none "shop.example" 50
      (fun _ => none)).1 = true ∧
    (validateTokenSession "jti1" "alice" 100 none none "evil.example" 50
      ((validateTokenSession "jti1" "alice" 100 none none "shop.example" 50
        (fun _ => none)).2)).1 = false := by
  have h1 := C1_token_session_binding.1 "jti1" "alice" 100 none none
    "shop.example" 50 (fun _ => none) rfl (by decide) (by decide) (by decide)
    rfl rfl
  constructor
  · rw [h1]
  · refine C1_token_session_binding.2.1 "jti1" "alice" 100 none none
      "evil.example" 50 _ ⟨"alice", some "shop.example", some "shop.example", 100, false⟩
      "shop.example" ?_ rfl (by decide)
    rw [h1]
    rfl

/-! ## Connection gateway (server.ts lines 368-384 and 443-593) -/

inductive SupportPresenceState
  | online
  | offline
deriving DecidableEq, Repr

inductive VisitorAuthType
  | authenticated
  | anonymous
deriving DecidableEq, Repr

/-- The verified `TokenClaims` fields the gateway reads.  `siteHost` is the
`toHost`-normalised `claims.site` (never `some ""`); `anon` is the optional
`anon` claim. -/
structure ClaimsM where
  sub : String
  name : Option String
  email : Option String
  siteHost : Option String
  anon : Option Bool
deriving DecidableEq, Repr

/-- JS `x || null` on a nullable string: the empty string is falsy. -/
def jsOrNull (o : Option String) : Option String :=
  match o with
  | some s => if s = "" then none else some s
  | none => none

/-- `isAnonClaims`: the `anon` claim is `true` or the subject starts with
`anon-`. -/
def isAnonClaims (c : ClaimsM) : Bool :=
  c.anon = some true || c.sub.startsWith "anon-"

/-- `authTypeFromClaims`. -/
def authTypeFromClaims (c : ClaimsM) : VisitorAuthType :=
  if isAnonClaims c then .anonymous else .authenticated

/-- `siteFromClaims(claims, fallback)`: the token's site host or the
configured fallback (`SITE_NAME`). -/
def siteFromClaims (c : ClaimsM) (fallback : String) : String :=
  (c.siteHost).getD fallback

/-- The parsed `init` frame: the client may send a `visitorId` and a `site`
field, both of which the handler ignores. -/
structure WsInitMsg where
  visitorId : Option String
  site : Option String
deriving DecidableEq, Repr

/-- Frames the server pushes during `auth`/`init` handling. -/
inductive OutFrame
  | auth_ok
  | initReply (visitorId : String)
  | presenceFrame (state : SupportPresenceState)
deriving DecidableEq, Repr

/-- Arguments the `init` branch passes to `stmts.upsertVisitor.run`. -/
structure UpsertArgs where
  id : String
  name : Option String
  site : String
  email : Option String
  auth_type : VisitorAuthType
deriving DecidableEq, Repr

/-- Everything the `init` branch of the socket message handler does. -/
structure InitEffects where
  visitorId : String
  upsert : UpsertArgs
  registerKey : String
  replies : List OutFrame
deriving DecidableEq, Repr

/-- The `msg.type === 'init'` branch of `wss.on('connection')`
(server.ts lines 524-537): the visitor id comes from `claims.sub` only; the
Visitor row is upserted from the claims; the socket is registered under that
id in the `clients` fanout map; the reply is `init{visitorId}` followed by
the current presence frame. -/
def handleInit (cfgSiteName : String) (claims : ClaimsM) (msg : WsInitMsg)
    (presence : SupportPresenceState) : InitEffects :=
  { visitorId := claims.sub
  , upsert :=
      ⟨claims.sub, jsOrNull claims.name, siteFromClaims claims cfgSiteName,
        jsOrNull claims.email, authTypeFromClaims claims⟩
  , registerKey := claims.sub
  , replies := [.initReply claims.sub, .presenceFrame presence] }

/-- Parsed socket frames (`WsIncomingMessage`).  `auth none` is an `auth`
frame whose `token` field is absent or not a string; `other` is any parsed
payload whose `type` is none of the protocol's; an unparseable payload is a
separate event (`none` below), caught and logged by the handler. -/
inductive WsFrame
  | auth (token : Option String)
  | initF (m : WsInitMsg)
  | typing
  | message (content : Option String)
  | other
deriving DecidableEq, Repr

/-- Outcome of handling one message event on an unauthenticated socket. -/
inductive UnauthStepResult
  | close (code : Nat) (reason : String)
  | authOk (claims : ClaimsM)
  | ignored
deriving DecidableEq, Repr

/-- The authentication deadline (`setTimeout(..., 5000)`). -/
def AUTH_TIMEOUT_MS : Nat := 5000

/-- The timer callback: close 4001 if still unauthenticated when it fires. -/
def authTimeoutFire (authenticated : Bool) : Option (Nat × String) :=
  if authenticated then none else some (4001, "Authentication required")

/-- The unauthenticated part of the socket message handler (server.ts lines
495-517), with token verification abstracted as the `verify` parameter
(`verifyToken(token, origin)`).  A parse failure (`none`) is caught by the
surrounding try/catch and only logged. -/
def unauthStep (verify : String → String → Option ClaimsM) (origin : String)
    (ev : Option WsFrame) : UnauthStepResult :=
  match ev with
  | none => .ignored
  | some f =>
    match f with
    | .auth (some token) =>
      match verify token origin with
      | some c => .authOk c
      | none => .close 4001 "Authentication required"
    | _ => .close 4001 "Authentication required"

/-! ### Claims C5 and C7 -/

/-- **C5**: on an `init` frame from an authenticated socket the visitor id is
resolved exclusively from the verified token's subject: two runs differing
only in the client-supplied `visitorId` field produce identical effects, the
resolved id is `claims.sub`, the upsert and fanout registration use it, and
the reply is `init{visitorId}` followed by the current presence frame. -/
theorem C5_init_ignores_client_visitor_id (cfgSiteName : String) (claims : ClaimsM)
    (presence : SupportPresenceState) (v1 v2 : Option String) (site : Option String) :
    handleInit cfgSiteName claims ⟨v1, site⟩ presence =
      handleInit cfgSiteName claims ⟨v2, site⟩ presence ∧
    (handleInit cfgSiteName claims ⟨v1, site⟩ presence).visitorId = claims.sub ∧
    (handleInit cfgSiteName claims ⟨v1, site⟩ presence).upsert.id = claims.sub ∧
    (handleInit cfgSiteName claims ⟨v1, site⟩ presence).registerKey = claims.sub ∧
    (handleInit cfgSiteName claims ⟨v1, site⟩ presence).replies =
      [.initReply claims.sub, .presenceFrame presence] :=
  ⟨rfl, rfl, rfl, rfl, rfl⟩

/-- **C7**: a socket that has not authenticated when the 5-second timer fires
is closed with code 4001; while unauthenticated, any parsed frame that is not
an `auth` frame carrying a string token closes the socket with 4001, and so
does an `auth` frame whose token fails verification against the socket's
request origin. -/
theorem C7_auth_required_close :
    AUTH_TIMEOUT_MS = 5000 ∧
    authTimeoutFire false = some (4001, "Authentication required") ∧
    authTimeoutFire true = none ∧
    (∀ (verify : String → String → Option ClaimsM) (origin : String) (f : WsFrame),
      (∀ t, f ≠ .auth (some t)) →
      unauthStep verify origin (some f) = .close 4001 "Authentication required") ∧
    (∀ (verify : String → String → Option ClaimsM) (origin t : String),
      verify t origin = none →
      unauthStep verify origin (some (.auth (some t))) =
        .close 4001 "Authentication required") := by
  refine ⟨rfl, rfl, rfl, ?_, ?_⟩
  · intro verify origin f hf
    cases f with
    | auth token =>
      cases token with
      | none => rfl
      | some t => exact absurd rfl (hf t)
    | initF m => rfl
    | typing => rfl
    | message c => rfl
    | other => rfl
  · intro verify origin t hv
    unfold unauthStep
    dsimp only
    rw [hv]

/-- Witness for C7 at concrete inputs: a `typing` frame and an `auth` frame
with a rejected token both close an unauthenticated socket with 4001. -/
theorem C7_auth_required_close_witness :
    unauthStep (fun _ _ => none) "https://shop.example" (some .typing) =
      .close 4001 "Authentication required" ∧
    unauthStep (fun _ _ => none) "https://shop.example" (some (.auth (some "tok"))) =
      .close 4001 "Authentication required" := by
  constructor
  · exact C7_auth_required_close.2.2.2.1 (fun _ _ => none) "https://shop.example"
      .typing (by intro t h; cases h)
  · exact C7_auth_required_close.2.2.2.2 (fun _ _ => none) "https://shop.example"
      "tok" rfl

/-! ## Message store and history endpoint (db.ts `messages`, server.ts
`/api/chat/:visitorId/history`) -/

inductive Sender
  | visitor
  | agent
deriving DecidableEq, Repr

inductive MsgKind
  | text
  | image
  | file
deriving DecidableEq, Repr

/-- One `messages` row.  `kind` is the row's `type` column; `created_at` is a
numeric timestamp (SQLite `CURRENT_TIMESTAMP`, nondecreasing across inserts). -/
structure MsgRow where
  id : Nat
  visitor_id : String
  sender : Sender
  content : String
  kind : MsgKind
  file_url : Option String
  created_at : Nat
deriving DecidableEq, Repr

/-- `AUTOINCREMENT`: the next id is strictly larger than every id ever used. -/
def nextMessageId (t : List MsgRow) : Nat :=
  (t.map (fun m => m.id)).foldr max 0 + 1

/-- `stmts.addMessage.run(...)`: append the row, returning the table and the
`lastInsertRowid`. -/
def addMessage (t : List MsgRow) (visitorId : String) (sender : Sender)
    (content : String) (kind : MsgKind) (fileUrl : Option String) (now : Nat) :
    List MsgRow × Nat :=
  (t ++ [⟨nextMessageId t, visitorId, sender, content, kind, fileUrl, now⟩],
    nextMessageId t)

/-- The contract of `stmts.getHistory` (`SELECT * FROM messages WHERE
visitor_id = ? ORDER BY created_at ASC`): the result is some permutation of
the visitor's rows that is nondecreasing in `created_at`.  The query has no
`id` tiebreaker and `created_at` is a second-granularity
`CURRENT_TIMESTAMP`, so SQLite leaves the relative order of rows with equal
`created_at` unspecified: every list satisfying this predicate is a possible
query result. -/
def getHistoryResult (t : List MsgRow) (visitorId : String)
    (res : List MsgRow) : Prop :=
  res.Perm (t.filter (fun m => m.visitor_id == visitorId)) ∧
  res.Pairwise (fun a b => a.created_at ≤ b.created_at)

/-- `GET /api/chat/:visitorId/history` after `requireAuth`: resolve the
visitor id from the token subject via `resolveVisitorId` (401 on a missing
subject, 400 on an empty path parameter, 403 on a subject mismatch), then
return the rows the query produced (`rows`, constrained by
`getHistoryResult`) unchanged. -/
def historyEndpoint (claims : Option ClaimsM) (visitorParam : String)
    (rows : List MsgRow) : Except Nat (List MsgRow) :=
  match claims with
  | none => .error 401
  | some c =>
    if c.sub = "" then .error 401
    else if visitorParam = "" then .error 400
    else if visitorParam ≠ c.sub then .error 403
    else .ok rows

/-! ### Claim C8 -/

/-- **C8 (code bug)**: the history query orders by `created_at` alone, so for
two messages of one visitor accepted within the same timestamp second both
the id-ordered list and its reversal satisfy the query's contract — the
reversal violating the claimed monotonically-increasing-id order — and the
endpoint returns whichever the query produced unchanged.  The code therefore
does not guarantee the claimed acceptance order for same-second messages. -/
theorem C8_history_tie_order_unspecified :
    getHistoryResult
      [⟨1, "v1", .visitor, "a", .text, none, 10⟩,
       ⟨2, "v1", .visitor, "b", .text, none, 10⟩] "v1"
      [⟨1, "v1", .visitor, "a", .text, none, 10⟩,
       ⟨2, "v1", .visitor, "b", .text, none, 10⟩] ∧
    getHistoryResult
      [⟨1, "v1", .visitor, "a", .text, none, 10⟩,
       ⟨2, "v1", .visitor, "b", .text, none, 10⟩] "v1"
      [⟨2, "v1", .visitor, "b", .text, none, 10⟩,
       ⟨1, "v1", .visitor, "a", .text, none, 10⟩] ∧
    ¬ ([⟨2, "v1", .visitor, "b", .text, none, 10⟩,
        ⟨1, "v1", .visitor, "a", .text, none, 10⟩] : List MsgRow).Pairwise
      (fun a b => a.id < b.id) ∧
    historyEndpoint (some ⟨"v1", none, none, none, none⟩) "v1"
      [⟨2, "v1", .visitor, "b", .text, none, 10⟩,
       ⟨1, "v1", .visitor, "a", .text, none, 10⟩] =
      .ok [⟨2, "v1", .visitor, "b", .text, none, 10⟩,
           ⟨1, "v1", .visitor, "a", .text, none, 10⟩] := by
  refine ⟨⟨?_, by decide⟩, ⟨?_, by decide⟩, by decide, by rfl⟩
  · exact List.Perm.refl _
  · exact List.Perm.swap _ _ _

/-! ## Telegram topic bridge (telegram.ts, inside src/src/types.ts lines
337-431) -/

/-- Outcome of one remote send call (`sendMessage`/`sendPhoto`/
`sendDocument`): success, a "message thread not found" error
(`isMissingThreadError`), or any other failure. -/
inductive SendOutcome
  | ok
  | missingThread
  | otherError
deriving DecidableEq, Repr

/-- Oracle for the remote platform: the i-th `createForumTopic` call returns
`createResults[i]` (`none` = throws or a non-numeric thread id) and the i-th
send call has outcome `sendResults[i]`. -/
structure TgEnv where
  createResults : List (Option Nat)
  sendResults : List SendOutcome
deriving DecidableEq, Repr

/-- The Visitor-row fields the bridge reads. -/
structure TgVisitor where
  name : Option String
  email : Option String
  auth_type : VisitorAuthType
  telegram_topic_id : Option Nat
deriving DecidableEq, Repr

/-- Bridge state: the visitor row (`none` = no row) plus counters indexing
into the oracle and a trace of side effects. -/
structure TgState where
  visitor : Option TgVisitor
  createCalls : Nat
  sendCalls : Nat
  clearedTopic : Bool
  createdTitles : List String
deriving DecidableEq, Repr

/-- JS truthiness of a nullable string (empty string is falsy). -/
def jsTruthyStr : Option String → Bool
  | some s => s != ""
  | none => false

/-- JS truthiness of a nullable number (0 is falsy). -/
def jsTruthyNat : Option Nat → Bool
  | some n => n != 0
  | none => false

/-- `stmts.setTopicId.run(tid, visitorId)` (no row, no change). -/
def setTopicIdSt (st : TgState) (tid : Option Nat) : TgState :=
  { st with visitor := st.visitor.map fun v => { v with telegram_topic_id := tid } }

/-- `clearVisitorTopic`: null out the cached thread id (`clearedTopic`
records that this happened). -/
def clearVisitorTopic (st : TgState) : TgState :=
  { setTopicIdSt st none with clearedTopic := true }

/-- The topic title computed by `createTopicForVisitor`: `[Anon] `-prefixed
for anonymous visitors, named from name/email when known, else the
sequential `Visitor #<count>` label; an empty site name falls back to
`unknown`. -/
def topicNameFor (visitor : Option TgVisitor) (count : Nat) (siteName : String) : String :=
  let isAnon : Bool := match visitor with
    | some v => v.auth_type == .anonymous
    | none => false
  let pfx := if isAnon then "[Anon] " else ""
  let site := if siteName = "" then "unknown" else siteName
  match visitor with
  | some v =>
    if jsTruthyStr v.name && jsTruthyStr v.email then
      pfx ++ v.name.getD "" ++ " (" ++ v.email.getD "" ++ ") from " ++ site
    else if jsTruthyStr v.email then
      pfx ++ v.email.getD "" ++ " from " ++ site
    else if jsTruthyStr v.name then
      pfx ++ v.name.getD "" ++ " from " ++ site
    else
      pfx ++ "Visitor #" ++ toString count ++ " from " ++ site
  | none => pfx ++ "Visitor #" ++ toString count ++ " from " ++ site

/-- `createTopicForVisitor(visitorId, siteName)`: reuse a truthy cached
thread id; otherwise call `createForumTopic` with the computed title and, on
a numeric result, cache it on the Visitor row.  `count` is
`getVisitorCount`. -/
def createTopicForVisitor (env : TgEnv) (count : Nat) (siteName : String)
    (st : TgState) : Option Nat × TgState :=
  if jsTruthyNat (st.visitor.bind fun v => v.telegram_topic_id) then
    (st.visitor.bind fun v => v.telegram_topic_id, st)
  else
    match env.createResults.getD st.createCalls none with
    | some topicId =>
        (some topicId,
          setTopicIdSt
            { st with
              createCalls := st.createCalls + 1
              createdTitles := st.createdTitles ++ [topicNameFor st.visitor count siteName] }
            (some topicId))
    | none =>
        (none,
          { st with
            createCalls := st.createCalls + 1
            createdTitles := st.createdTitles ++ [topicNameFor st.visitor count siteName] })

/-- One remote send call, consuming the next oracle outcome. -/
def doSend (env : TgEnv) (st : TgState) : SendOutcome × TgState :=
  (env.sendResults.getD st.sendCalls .otherError,
    { st with sendCalls := st.sendCalls + 1 })

/-- The `try { await sendToTopicId(topicId) } catch` block of `sendToTopic`:
on a "message thread not found" error clear the cached id, recreate once and
retry the single send once; any other failure (and a failed retry) is only
logged. -/
def sendAttempt (env : TgEnv) (count : Nat) (siteName : String) (st : TgState) : TgState :=
  match doSend env st with
  | (.ok, st2) => st2
  | (.otherError, st2) => st2
  | (.missingThread, st2) =>
    match createTopicForVisitor env count siteName (clearVisitorTopic st2) with
    | (rep, st4) => if jsTruthyNat rep then (doSend env st4).2 else st4

/-- `sendToTopic(visitorId, content, type, siteName, fileUrl)`: resolve the
cached thread id (0 is falsy), create the topic if absent, give up when no
topic id could be obtained, then attempt the send with the recovery logic of
`sendAttempt`.  Content dispatch by kind is inside the oracle's send call. -/
def sendToTopic (env : TgEnv) (count : Nat) (siteName : String) (st : TgState) : TgState :=
  if jsTruthyNat (st.visitor.bind fun v => v.telegram_topic_id) then
    sendAttempt env count siteName st
  else
    match createTopicForVisitor env count siteName st with
    | (tid, st1) =>
      if jsTruthyNat tid then sendAttempt env count siteName st1 else st1

/-! ### Claims C6 and C9 -/

/-- **C6**: when the first send hits "message thread not found", `sendToTopic`
clears the visitor's cached thread id, creates exactly one replacement topic,
caches it, and retries the send exactly once — whatever the retry's outcome,
no further create or send call is made (one create call, two send calls in
total). -/
theorem C6_thread_recovery (env : TgEnv) (v : TgVisitor) (t r count : Nat)
    (siteName : String)
    (hv : v.telegram_topic_id = some t) (ht : t ≠ 0)
    (hsend1 : env.sendResults.getD 0 .otherError = .missingThread)
    (hcreate : env.createResults.getD 0 none = some r) (hr : r ≠ 0) :
    (sendToTopic env count siteName ⟨some v, 0, 0, false, []⟩).createCalls = 1 ∧
    (sendToTopic env count siteName ⟨some v, 0, 0, false, []⟩).sendCalls = 2 ∧
    (sendToTopic env count siteName ⟨some v, 0, 0, false, []⟩).clearedTopic = true ∧
    ((sendToTopic env count siteName ⟨some v, 0, 0, false, []⟩).visitor.map
      fun w => w.telegram_topic_id) = some (some r) := by
  simp only [List.getD, List.get?_eq_getElem?] at hsend1 hcreate
  simp [sendToTopic, sendAttempt, doSend, createTopicForVisitor, clearVisitorTopic,
    setTopicIdSt, jsTruthyNat, hv, ht, hsend1, hcreate, hr]

/-- Witness for C6 at concrete inputs: cached thread 4 is gone, replacement 9
is created once, the retry also fails, and nothing more is attempted. -/
theorem C6_thread_recovery_witness :
    (sendToTopic ⟨[some 9], [.missingThread, .otherError]⟩ 3 "shop.example"
      ⟨some ⟨none, none, .authenticated, some 4⟩, 0, 0, false, []⟩).createCalls = 1 ∧
    (sendToTopic ⟨[some 9], [.missingThread, .otherError]⟩ 3 "shop.example"
      ⟨some ⟨none, none, .authenticated, some 4⟩, 0, 0, false, []⟩).sendCalls = 2 ∧
    (sendToTopic ⟨[some 9], [.missingThread, .otherError]⟩ 3 "shop.example"
      ⟨some ⟨none, none, .authenticated, some 4⟩, 0, 0, false, []⟩).clearedTopic = true ∧
    ((sendToTopic ⟨[some 9], [.missingThread, .otherError]⟩ 3 "shop.example"
      ⟨some ⟨none, none, .authenticated, some 4⟩, 0, 0, false, []⟩).visitor.map
        fun w => w.telegram_topic_id) = some (some 9) :=
  C6_thread_recovery ⟨[some 9], [.missingThread, .otherError]⟩
    ⟨none, none, .authenticated, some 4⟩ 4 9 3 "shop.example"
    rfl (by decide) rfl rfl (by decide)

/-- **C9 counterexample**: for an anonymous visitor with no known name and no
known email, the first outbound send creates the remote thread with the
`[Anon] `-prefixed title, not the claimed bare `Visitor #<N> from <site>`. -/
theorem C9_counterexample :
    (sendToTopic ⟨[some 5], [.ok]⟩ 7 "shop.example"
        ⟨some ⟨none, none, .anonymous, none⟩, 0, 0, false, []⟩).createdTitles =
      ["[Anon] Visitor #7 from shop.example"] ∧
    "[Anon] Visitor #7 from shop.example" ≠ "Visitor #7 from shop.example" := by
  exact ⟨rfl, by decide⟩

/-- **C9 (amended)**: for an anonymous visitor with no known name and no known
email, the first outbound send creates exactly one remote thread titled
`[Anon] Visitor #<N> from <site>` — the `[Anon] ` prefix marks anonymous
visitors in every naming branch, identity known or not — with `N` the
sequential visitor count, and the resulting thread id is cached on the
Visitor row. -/
theorem C9_anon_topic_naming (env : TgEnv) (v : TgVisitor) (count r : Nat)
    (siteName : String)
    (hanon : v.auth_type = VisitorAuthType.anonymous)
    (hname : jsTruthyStr v.name = false) (hemail : jsTruthyStr v.email = false)
    (htopic : v.telegram_topic_id = none) (hsite : siteName ≠ "")
    (hcreate : env.createResults.getD 0 none = some r) (hr : r ≠ 0)
    (hsend : env.sendResults.getD 0 .otherError = .ok) :
    (sendToTopic env count siteName ⟨some v, 0, 0, false, []⟩).createdTitles =
      ["[Anon] " ++ "Visitor #" ++ toString count ++ " from " ++ siteName] ∧
    (sendToTopic env count siteName ⟨some v, 0, 0, false, []⟩).createCalls = 1 ∧
    ((sendToTopic env count siteName ⟨some v, 0, 0, false, []⟩).visitor.map
      fun w => w.telegram_topic_id) = some (some r) := by
  simp only [List.getD, List.get?_eq_getElem?] at hsend hcreate
  simp [sendToTopic, sendAttempt, doSend, createTopicForVisitor, topicNameFor,
    setTopicIdSt, jsTruthyNat, hanon, hname, hemail, htopic, hsite, hcreate, hr, hsend]

/-- Witness for the amended C9 at concrete inputs. -/
theorem C9_anon_topic_naming_witness :
    (sendToTopic ⟨[some 5], [.ok]⟩ 7 "shop.example"
        ⟨some ⟨none, none, .anonymous, none⟩, 0, 0, false, []⟩).createCalls = 1 ∧
    ((sendToTopic ⟨[some 5], [.ok]⟩ 7 "shop.example"
        ⟨some ⟨none, none, .anonymous, none⟩, 0, 0, false, []⟩).visitor.map
      fun w => w.telegram_topic_id) = some (some 5) := by
  have h := C9_anon_topic_naming ⟨[some 5], [.ok]⟩ ⟨none, none, .anonymous, none⟩
    7 5 "shop.example" rfl rfl rfl rfl (by decide) rfl (by decide) rfl
  exact ⟨h.2.1, h.2.2⟩

end BuzzLine
